import Mathlib

/-!
Shallow embedding of the task-store logic of the `sk-tasks` repository
(`src/app/(tabs)/tasks.tsx`: `TasksScreen`, `HomeScreen`, and the
`AddTaskModal` component), together with proofs of the specified
properties of `add`, `load`, `toggleCompletion`, `remove`, the search
view, and the completion-percentage derivation.

Modelling conventions:
* A `Task` record mirrors the `Task` interface (`id`, `title`,
  `completed`, `category`, `date`).
* `AsyncStorage.getItem` is modelled by a `GetResult` value: a rejected
  promise (`failure`), a missing key (`absent`), or a stored string
  (`found s`).  `JSON.parse` is modelled by an explicit
  `parse : String → Option (List Task)` argument (`none` = the parse
  threw), and `JSON.stringify` by a `stringify : List Task → String`
  argument, since both are host-library calls.
* `Date.now().toString()` is modelled by `natDecimalString` applied to a
  clock reading `now : Nat`; the display date string is an opaque input.
* React state updates (`setTasks`) become explicit state passing: each
  handler takes the current `tasks` list and returns the next one.
-/

namespace SkTasks

/-- The `Task` interface of `tasks.tsx`: `id`, `title`, `completed`,
`category`, `date`. -/
structure Task where
  id : String
  title : String
  completed : Bool
  category : String
  date : String
deriving DecidableEq, Repr

/-- The `CATEGORIES` constant of `TasksScreen` (includes the `All` filter). -/
def CATEGORIES : List String := ["All", "Work", "Personal", "Shopping", "Health"]

/-- The `CATEGORY_NAMES` constant of `HomeScreen`. -/
def CATEGORY_NAMES : List String := ["Work", "Personal", "Shopping", "Health"]

/-- Fuel-driven little-endian decimal digit extraction; the fuel makes the
recursion structural so the kernel can evaluate it.  With fuel `≥ n` it
computes the decimal digits of `n` (empty for `0`). -/
def jsDigitsAux : Nat → Nat → List Nat
  | _, 0 => []
  | 0, _ + 1 => []
  | fuel + 1, n + 1 => ((n + 1) % 10) :: jsDigitsAux fuel ((n + 1) / 10)

/-- Little-endian decimal digits of `n` (empty for `0`). -/
def jsDigits (n : Nat) : List Nat := jsDigitsAux n n

/-- Decimal rendering of a natural number: a model of JavaScript
`Number.prototype.toString()` as applied to the integer clock reading
`Date.now()` — most-significant digit first, `0` rendered as `"0"`. -/
def natDecimalString (n : Nat) : String :=
  if n = 0 then "0" else String.mk (((jsDigits n).map Nat.digitChar).reverse)

/-- JavaScript `String.prototype.trim()`: drop whitespace from both ends,
modelled structurally over the character list so the kernel can evaluate
it. -/
def jsTrim (s : String) : String :=
  String.mk (((s.data.dropWhile Char.isWhitespace).reverse.dropWhile
    Char.isWhitespace).reverse)

/-- The record built by `handleAddTask` in `TasksScreen` (lines 59-65) and
identically in `HomeScreen` (lines 359-365): id from the clock reading,
trimmed title, `completed: false`, the chosen category, and the
display-formatted date string. -/
def newTask (now : Nat) (title category date : String) : Task :=
  { id := natDecimalString now
    title := jsTrim title
    completed := false
    category := category
    date := date }

/-- `handleAddTask` of `TasksScreen`/`HomeScreen`: builds `newTask`,
prepends it (`[newTask, ...tasks]`), and hands the updated list to
`saveTasks`/`setTasks`.  The created record is returned alongside the
updated collection. -/
def handleAddTask (now : Nat) (title category date : String) (tasks : List Task) :
    Task × List Task :=
  let t := newTask now title category date
  (t, t :: tasks)

/-- `toggleTask` (lines 71-76, and 386-389 in `HomeScreen`): flips
`completed` on every record whose `id` matches, leaves the rest alone. -/
def toggleTask (id : String) (tasks : List Task) : List Task :=
  tasks.map fun task =>
    if task.id = id then { task with completed := !task.completed } else task

/-- The confirmed branch of `deleteTask` (lines 78-97): keeps the records
whose `id` differs from the requested one. -/
def deleteTask (id : String) (tasks : List Task) : List Task :=
  tasks.filter fun task => task.id != id

/-- Result of `AsyncStorage.getItem`: the promise rejected, the key was
absent (`null`), or a string was stored. -/
inductive GetResult where
  | failure : GetResult
  | absent : GetResult
  | found : String → GetResult
deriving DecidableEq, Repr

/-- `loadTasks` of `TasksScreen` (lines 38-47): on a read failure or a
parse failure the `catch` only logs, so the state is unchanged; when the
key is absent (or holds the falsy empty string) the `if (storedTasks)`
guard skips `setTasks`, so the state is also unchanged; otherwise the
parsed list replaces the state. -/
def loadTasks (parse : String → Option (List Task)) (stored : GetResult)
    (state : List Task) : List Task :=
  match stored with
  | .failure => state
  | .absent => state
  | .found s =>
    if s = "" then state
    else
      match parse s with
      | some ts => ts
      | none => state

/-- `loadData` of `HomeScreen` (lines 333-350): `storedTasks ?
JSON.parse(storedTasks) : []` — an absent (or falsy empty) blob yields the
empty list, a parse failure is caught and only logged (state unchanged),
and a read failure likewise leaves the state unchanged. -/
def loadData (parse : String → Option (List Task)) (stored : GetResult)
    (state : List Task) : List Task :=
  match stored with
  | .failure => state
  | .absent => []
  | .found s =>
    if s = "" then []
    else
      match parse s with
      | some ts => ts
      | none => state

/-- The `handleAddTask` submit guard of `AddTaskModal` (lines 755-768):
rejects with a blocking alert when the trimmed title is empty, otherwise
invokes `onAddTask` with the raw title and the chosen category. -/
inductive SubmitResult where
  | alerted : SubmitResult
  | submitted : String → String → SubmitResult
deriving DecidableEq, Repr

/-- The decision taken by `AddTaskModal.handleAddTask` on its inputs. -/
def modalHandleAddTask (newTaskTitle newTaskCategory : String) : SubmitResult :=
  if (jsTrim newTaskTitle).length = 0 then .alerted
  else .submitted newTaskTitle newTaskCategory

/-- The composite effect on the collection of pressing `Create Task`: the
modal either alerts (collection untouched) or forwards the raw title and
category to the screen-level `handleAddTask`, which trims and prepends. -/
def submitTask (now : Nat) (date : String) (newTaskTitle newTaskCategory : String)
    (tasks : List Task) : List Task :=
  match modalHandleAddTask newTaskTitle newTaskCategory with
  | .alerted => tasks
  | .submitted title category => (handleAddTask now title category date tasks).2

/-- JavaScript `String.prototype.toLowerCase`, modelled as the
character-wise lowercase map. -/
def jsToLower (s : String) : String := String.mk (s.data.map Char.toLower)

/-- Substring search over character lists: some suffix of `l₂` starts
with `l₁`. -/
def listIsInfixOf (l₁ l₂ : List Char) : Bool := l₂.tails.any (l₁.isPrefixOf ·)

/-- JavaScript `String.prototype.includes`: substring containment. -/
def jsIncludes (s q : String) : Bool := listIsInfixOf q.data s.data

/-- The search predicate `t.title.toLowerCase().includes(searchQuery.toLowerCase())`. -/
def matchesSearch (searchQuery : String) (t : Task) : Bool :=
  jsIncludes (jsToLower t.title) (jsToLower searchQuery)

/-- The `displayedTasks` derived view of `HomeScreen` (lines 412-414):
with a non-empty query, the case-insensitive substring filter over
titles; otherwise the first five tasks (`tasks.slice(0, 5)`). -/
def displayedTasks (searchQuery : String) (tasks : List Task) : List Task :=
  if searchQuery.length > 0 then tasks.filter (matchesSearch searchQuery)
  else tasks.take 5

/-- `completedCount` of `HomeScreen` (line 407). -/
def completedCount (tasks : List Task) : Nat :=
  (tasks.filter fun t => t.completed).length

/-- `totalCount` of `HomeScreen` (line 408). -/
def totalCount (tasks : List Task) : Nat := tasks.length

/-- `progress` of `HomeScreen` (line 409), with JavaScript number
arithmetic modelled by exact rationals:
`totalCount > 0 ? (completedCount / totalCount) * 100 : 0`. -/
def progress (tasks : List Task) : ℚ :=
  if totalCount tasks > 0 then
    ((completedCount tasks : ℚ) / (totalCount tasks : ℚ)) * 100
  else 0

/-- C1: `add` prepends a fresh not-completed record: the result is one
longer, the created record (with `completed = false`) comes first and is
the returned one, and the previous records follow in order. -/
theorem handleAddTask_spec (now : Nat) (title category date : String)
    (tasks : List Task) :
    (handleAddTask now title category date tasks).2.length = tasks.length + 1 ∧
    (handleAddTask now title category date tasks).2 =
      (handleAddTask now title category date tasks).1 :: tasks ∧
    (handleAddTask now title category date tasks).1 = newTask now title category date ∧
    (handleAddTask now title category date tasks).1.completed = false := by
  refine ⟨?_, rfl, rfl, rfl⟩
  simp [handleAddTask]

/-- C3: toggling the same id twice restores every record, hence every
`completed` flag, to its original value. -/
theorem toggleTask_involutive (id : String) (tasks : List Task) :
    toggleTask id (toggleTask id tasks) = tasks := by
  unfold toggleTask
  rw [List.map_map]
  apply List.map_id''
  intro t
  by_cases h : t.id = id
  · cases t
    simp_all
  · simp [Function.comp, h]

/-- C5: toggling changes at most the `completed` field of matching
records: the collection keeps its length, every record keeps its `id`,
`title`, `category` and `date`, non-matching records are untouched, and
when nothing matches the whole collection is unchanged. -/
theorem toggleTask_frame (id : String) (tasks : List Task) :
    (toggleTask id tasks).length = tasks.length ∧
    List.Forall₂
      (fun t r => r.id = t.id ∧ r.title = t.title ∧ r.category = t.category ∧
        r.date = t.date ∧ (t.id ≠ id → r = t))
      tasks (toggleTask id tasks) ∧
    ((∀ t ∈ tasks, t.id ≠ id) → toggleTask id tasks = tasks) := by
  refine ⟨by simp [toggleTask], ?_, ?_⟩
  · unfold toggleTask
    rw [List.forall₂_map_right_iff]
    rw [List.forall₂_same]
    intro t _
    by_cases h : t.id = id
    · simp [h]
    · simp [h]
  · intro hnone
    unfold toggleTask
    rw [List.map_congr_left (fun t ht => if_neg (hnone t ht))]
    simp

/-- C7: on a storage-read failure the handler only logs, leaving the
in-memory collection exactly as it was, in both screens. -/
theorem load_read_failure_state_unchanged (parse : String → Option (List Task))
    (state : List Task) :
    loadTasks parse .failure state = state ∧ loadData parse .failure state = state :=
  ⟨rfl, rfl⟩

/-- A concrete stored task used in counterexamples and witnesses. -/
def sampleTask : Task :=
  { id := "1", title := "a", completed := false, category := "Work", date := "d" }

/-- A second concrete stored task with a different identifier. -/
def sampleTask2 : Task :=
  { id := "2", title := "b", completed := true, category := "Health", date := "d" }

/-- C2 counterexample: with a non-empty in-memory collection, a
deserialization failure does not make `load` return the empty sequence —
both `loadTasks` and `loadData` keep the prior state instead. -/
theorem load_empty_on_parse_failure_false :
    loadTasks (fun _ => none) (.found "bad") [sampleTask] ≠ [] ∧
    loadData (fun _ => none) (.found "bad") [sampleTask] ≠ [] := by
  constructor <;> decide

/-- C2 amended: with an absent blob `loadData` yields the empty sequence
while `loadTasks` leaves the state unchanged; on a deserialization
failure both leave the in-memory collection unchanged (so the result is
empty exactly when the prior state was, as on a fresh mount); the failure
is only logged, and `load` still returns a collection rather than an
error. -/
theorem load_absent_or_parse_failure (parse : String → Option (List Task))
    (state : List Task) (s : String) (hp : parse s = none) (hs : s ≠ "") :
    loadTasks parse .absent state = state ∧
    loadData parse .absent state = [] ∧
    loadTasks parse (.found s) state = state ∧
    loadData parse (.found s) state = state := by
  refine ⟨rfl, rfl, ?_, ?_⟩ <;> simp [loadTasks, loadData, hs, hp]

/-- Witness for the amended C2 at a concrete parse, blob and state. -/
theorem load_absent_or_parse_failure_witness :
    ((fun _ => (none : Option (List Task))) "x" = none ∧ "x" ≠ "") ∧
    (loadTasks (fun _ => none) .absent [sampleTask] = [sampleTask] ∧
     loadData (fun _ => none) .absent [sampleTask] = [] ∧
     loadTasks (fun _ => none) (.found "x") [sampleTask] = [sampleTask] ∧
     loadData (fun _ => none) (.found "x") [sampleTask] = [sampleTask]) :=
  ⟨⟨rfl, by decide⟩,
   load_absent_or_parse_failure (fun _ => none) [sampleTask] "x" rfl (by decide)⟩

/-- C4: after a confirmed `remove(id)` the persisted blob holds the
filtered collection, so a subsequent `load` (with the JSON round-trip
recovering what was stored) contains no record with that identifier. -/
theorem deleteTask_then_load_no_id (parse : String → Option (List Task))
    (stringify : List Task → String) (id : String) (tasks state : List Task)
    (hround : parse (stringify (deleteTask id tasks)) = some (deleteTask id tasks))
    (hs : stringify (deleteTask id tasks) ≠ "") (t : Task)
    (ht : t ∈ loadTasks parse (.found (stringify (deleteTask id tasks))) state) :
    t.id ≠ id := by
  rw [loadTasks, if_neg hs, hround] at ht
  have := (List.mem_filter.mp ht).2
  exact bne_iff_ne.mp this

/-- Witness for C4 at a concrete collection, codec and record. -/
theorem deleteTask_then_load_no_id_witness :
    ((fun _ => some [sampleTask2]) ((fun _ => "s") (deleteTask "1" [sampleTask, sampleTask2])) =
        some (deleteTask "1" [sampleTask, sampleTask2]) ∧
     (fun _ => "s") (deleteTask "1" [sampleTask, sampleTask2]) ≠ "" ∧
     sampleTask2 ∈ loadTasks (fun _ => some [sampleTask2])
        (.found ((fun _ => "s") (deleteTask "1" [sampleTask, sampleTask2]))) []) ∧
    sampleTask2.id ≠ "1" :=
  ⟨⟨by decide, by decide, by decide⟩,
   deleteTask_then_load_no_id (fun _ => some [sampleTask2]) (fun _ => "s") "1"
     [sampleTask, sampleTask2] [] (by decide) (by decide) sampleTask2 (by decide)⟩

/-- C8: a submission whose trimmed title is empty is rejected with the
blocking alert and leaves the collection unchanged; otherwise a task is
created whose stored title is the trimmed input (and which starts not
completed). -/
theorem submitTask_validation (now : Nat) (date newTaskTitle newTaskCategory : String)
    (tasks : List Task) :
    ((jsTrim newTaskTitle).length = 0 →
      modalHandleAddTask newTaskTitle newTaskCategory = .alerted ∧
      submitTask now date newTaskTitle newTaskCategory tasks = tasks) ∧
    ((jsTrim newTaskTitle).length ≠ 0 →
      submitTask now date newTaskTitle newTaskCategory tasks =
        newTask now newTaskTitle newTaskCategory date :: tasks ∧
      (newTask now newTaskTitle newTaskCategory date).title = jsTrim newTaskTitle ∧
      (newTask now newTaskTitle newTaskCategory date).completed = false) := by
  constructor <;> intro h <;>
    simp [submitTask, modalHandleAddTask, handleAddTask, newTask, h]

/-- Witness for C8: a whitespace-only title is rejected, a trimmable
title is stored trimmed. -/
theorem submitTask_validation_witness :
    (((jsTrim " ").length = 0 ∧
      modalHandleAddTask " " "Work" = .alerted ∧
      submitTask 5 "d" " " "Work" [sampleTask] = [sampleTask])) ∧
    (((jsTrim " a ").length ≠ 0 ∧
      submitTask 5 "d" " a " "Work" [sampleTask] =
        newTask 5 " a " "Work" "d" :: [sampleTask] ∧
      (newTask 5 " a " "Work" "d").title = jsTrim " a " ∧
      (newTask 5 " a " "Work" "d").completed = false)) :=
  ⟨⟨by decide, (submitTask_validation 5 "d" " " "Work" [sampleTask]).1 (by decide)⟩,
   ⟨by decide, (submitTask_validation 5 "d" " a " "Work" [sampleTask]).2 (by decide)⟩⟩

/-- C9: with a non-empty query the search view is exactly the
case-insensitive title-substring filter, and it is empty whenever no
title matches the query. -/
theorem displayedTasks_search (q : String) (tasks : List Task) (hq : 0 < q.length) :
    (∀ t, t ∈ displayedTasks q tasks ↔ t ∈ tasks ∧ matchesSearch q t = true) ∧
    ((∀ t ∈ tasks, matchesSearch q t = false) → displayedTasks q tasks = []) := by
  constructor
  · intro t
    simp [displayedTasks, hq, List.mem_filter]
  · intro hall
    simp only [displayedTasks, if_pos hq]
    rw [List.filter_eq_nil_iff]
    intro t ht
    simp [hall t ht]

/-- Witness for C9: the query `z` matches no title in a one-task
collection, so the search view is empty. -/
theorem displayedTasks_search_witness :
    (0 < "z".length ∧ (∀ t ∈ [sampleTask], matchesSearch "z" t = false)) ∧
    (sampleTask ∈ displayedTasks "z" [sampleTask] ↔
      sampleTask ∈ [sampleTask] ∧ matchesSearch "z" sampleTask = true) ∧
    displayedTasks "z" [sampleTask] = [] :=
  ⟨⟨by decide, by decide⟩,
   (displayedTasks_search "z" [sampleTask] (by decide)).1 sampleTask,
   (displayedTasks_search "z" [sampleTask] (by decide)).2 (by decide)⟩

/-- C10: the completion percentage is totally defined — `0` on the empty
collection, and `(completed / total) * 100` on a non-empty one. -/
theorem progress_total (tasks : List Task) :
    (tasks = [] → progress tasks = 0) ∧
    (tasks ≠ [] →
      progress tasks =
        ((completedCount tasks : ℚ) / (totalCount tasks : ℚ)) * 100) := by
  constructor
  · rintro rfl
    rfl
  · intro h
    have hpos : 0 < totalCount tasks := List.length_pos.mpr h
    simp [progress, hpos]

/-- Witness for C10 on the empty and a one-task collection. -/
theorem progress_total_witness :
    progress [] = 0 ∧
    ([sampleTask2] ≠ ([] : List Task) ∧
      progress [sampleTask2] =
        ((completedCount [sampleTask2] : ℚ) / (totalCount [sampleTask2] : ℚ)) * 100) :=
  ⟨(progress_total []).1 rfl,
   by decide, (progress_total [sampleTask2]).2 (by decide)⟩

/-- Value of a little-endian decimal digit list. -/
def ofDecDigits (l : List Nat) : Nat := l.foldr (fun d acc => d + 10 * acc) 0

theorem ofDecDigits_jsDigitsAux (fuel : Nat) :
    ∀ n, n ≤ fuel → ofDecDigits (jsDigitsAux fuel n) = n := by
  induction fuel with
  | zero =>
    intro n hn
    interval_cases n
    rfl
  | succ fuel ih =>
    intro n hn
    match n with
    | 0 => rfl
    | m + 1 =>
      have hdiv : (m + 1) / 10 < m + 1 := Nat.div_lt_self (Nat.succ_pos m) (by norm_num)
      have : ofDecDigits (jsDigitsAux fuel ((m + 1) / 10)) = (m + 1) / 10 :=
        ih _ (by omega)
      simp only [jsDigitsAux, ofDecDigits, List.foldr] at this ⊢
      rw [this]
      exact Nat.mod_add_div (m + 1) 10

theorem ofDecDigits_jsDigits (n : Nat) : ofDecDigits (jsDigits n) = n :=
  ofDecDigits_jsDigitsAux n n le_rfl

theorem jsDigits_injective : Function.Injective jsDigits := by
  intro m n h
  have hm := ofDecDigits_jsDigits m
  rw [h, ofDecDigits_jsDigits n] at hm
  exact hm.symm

theorem jsDigitsAux_lt_ten (fuel : Nat) :
    ∀ n, ∀ d ∈ jsDigitsAux fuel n, d < 10 := by
  induction fuel with
  | zero =>
    intro n d hd
    match n with
    | 0 => simp [jsDigitsAux] at hd
    | m + 1 => simp [jsDigitsAux] at hd
  | succ fuel ih =>
    intro n d hd
    match n with
    | 0 => simp [jsDigitsAux] at hd
    | m + 1 =>
      simp only [jsDigitsAux, List.mem_cons] at hd
      rcases hd with rfl | hd
      · exact Nat.mod_lt _ (by norm_num)
      · exact ih _ d hd

theorem jsDigits_lt_ten (n : Nat) : ∀ d ∈ jsDigits n, d < 10 :=
  jsDigitsAux_lt_ten n n

theorem digitChar_injOn : ∀ a, a < 10 → ∀ b, b < 10 →
    Nat.digitChar a = Nat.digitChar b → a = b := by decide

theorem map_digitChar_inj : ∀ l₁ l₂ : List Nat, (∀ d ∈ l₁, d < 10) →
    (∀ d ∈ l₂, d < 10) → l₁.map Nat.digitChar = l₂.map Nat.digitChar → l₁ = l₂ := by
  intro l₁
  induction l₁ with
  | nil =>
    intro l₂ _ _ h
    cases l₂ with
    | nil => rfl
    | cons b t₂ => simp at h
  | cons a t ih =>
    intro l₂ h₁ h₂ h
    cases l₂ with
    | nil => simp at h
    | cons b t₂ =>
      simp only [List.map_cons, List.cons.injEq] at h
      have hab : a = b :=
        digitChar_injOn a (h₁ a (by simp)) b (h₂ b (by simp)) h.1
      rw [hab, ih t₂ (fun d hd => h₁ d (by simp [hd])) (fun d hd => h₂ d (by simp [hd])) h.2]

theorem natDecimalString_injective : Function.Injective natDecimalString := by
  have key : ∀ n : Nat, n ≠ 0 →
      String.mk (((jsDigits n).map Nat.digitChar).reverse) ≠ "0" := by
    intro n hn hcontra
    have hdata : ((jsDigits n).map Nat.digitChar).reverse = ['0'] :=
      congrArg String.data hcontra
    have hmap : (jsDigits n).map Nat.digitChar = ['0'] := by
      rw [List.reverse_eq_iff] at hdata
      simpa using hdata
    have hdig : jsDigits n = [0] := by
      have h0 : ([0] : List Nat).map Nat.digitChar = ['0'] := rfl
      exact map_digitChar_inj (jsDigits n) [0] (jsDigits_lt_ten n)
        (by intro d hd; simp at hd; omega) (hmap.trans h0.symm)
    have := ofDecDigits_jsDigits n
    rw [hdig] at this
    exact hn ((rfl : (0 : Nat) = ofDecDigits [0]).trans this).symm
  intro m n h
  unfold natDecimalString at h
  by_cases hm : m = 0 <;> by_cases hn : n = 0
  · rw [hm, hn]
  · rw [if_pos hm, if_neg hn] at h
    exact absurd h.symm (key n hn)
  · rw [if_neg hm, if_pos hn] at h
    exact absurd h (key m hm)
  · rw [if_neg hm, if_neg hn] at h
    have hdata := congrArg String.data h
    simp only at hdata
    have hrev := List.reverse_injective hdata
    exact jsDigits_injective
      (map_digitChar_inj _ _ (jsDigits_lt_ten m) (jsDigits_lt_ten n) hrev)

/-- A whole run of `add` operations starting from the empty collection:
each step prepends the record built from that step's clock reading,
title, category and date. -/
def runAdds (inputs : List (Nat × String × String × String)) : List Task :=
  inputs.foldl (fun tasks i => (handleAddTask i.1 i.2.1 i.2.2.1 i.2.2.2 tasks).2) []

theorem foldl_handleAddTask_eq (inputs : List (Nat × String × String × String)) :
    ∀ acc, inputs.foldl (fun tasks i => (handleAddTask i.1 i.2.1 i.2.2.1 i.2.2.2 tasks).2) acc =
      (inputs.map fun i => newTask i.1 i.2.1 i.2.2.1 i.2.2.2).reverse ++ acc := by
  induction inputs with
  | nil => intro acc; rfl
  | cons i t ih =>
    intro acc
    simp only [List.foldl_cons, List.map_cons, List.reverse_cons, List.append_assoc]
    rw [ih]
    rfl

/-- C6: over any run of `add` operations whose clock readings are
strictly increasing (the monotone clock of the spec), all identifiers in
the resulting collection are pairwise distinct, because the decimal
rendering of the clock reading is injective. -/
theorem runAdds_ids_nodup (inputs : List (Nat × String × String × String))
    (hmono : (inputs.map fun i => i.1).Pairwise (· < ·)) :
    ((runAdds inputs).map Task.id).Nodup := by
  unfold runAdds
  rw [foldl_handleAddTask_eq inputs []]
  rw [List.append_nil, List.map_reverse, List.nodup_reverse, List.map_map]
  have hfun : (Task.id ∘ fun i : Nat × String × String × String =>
      newTask i.1 i.2.1 i.2.2.1 i.2.2.2) =
      natDecimalString ∘ fun i : Nat × String × String × String => i.1 := rfl
  rw [hfun, ← List.map_map]
  have hnodup : (inputs.map fun i => i.1).Nodup :=
    List.Pairwise.imp Nat.ne_of_lt hmono
  exact List.Nodup.map natDecimalString_injective hnodup

/-- Witness for C6: two adds at clock readings 1 and 2 yield distinct
identifiers. -/
theorem runAdds_ids_nodup_witness :
    (([(1, "a", "Work", "da"), (2, "b", "Health", "db")].map
        fun i : Nat × String × String × String => i.1).Pairwise (· < ·)) ∧
    ((runAdds [(1, "a", "Work", "da"), (2, "b", "Health", "db")]).map Task.id).Nodup :=
  ⟨by decide,
   runAdds_ids_nodup [(1, "a", "Work", "da"), (2, "b", "Health", "db")] (by decide)⟩

end SkTasks
